import Mathlib

/-!
Shallow embedding of the core of `src/codux/main.py` (a Python HTTP client
for a remote code-execution service) and proofs of the specification's
claims about it.

Modelling conventions:
* JSON values are the inductive `Json` below; Python `None` and JSON `null`
  coincide (as they do at Python runtime after `json` decoding), numbers are
  carried as `Rat` (no arithmetic is ever performed on them).
* Python dicts appearing as JSON objects or HTTP header maps are association
  lists with unique keys and insertion order; `List.lookup` (first match)
  models `d[k]` / `d.get(k)`.
* An HTTP outcome seen by `session.request` is either a network-level
  failure (carrying the `str()` of the raised requests exception) or an
  `HttpResponse` whose body is empty, valid JSON, or invalid JSON (carrying
  the `str()` of the `JSONDecodeError` that `response.json()` would raise).
* requests >= 2.27 semantics: `response.json()` on an unparseable body
  raises `requests.exceptions.JSONDecodeError`, which is a
  `RequestException` but not an `HTTPError`.
* A Python exception that escapes `_make_request` is an `Except.error` of
  `ClientError`; exceptions that the code does not itself construct
  (e.g. an `AttributeError` from calling `.get` on a non-dict) are the
  `uncaught` constructor.
-/

inductive Json where
  | null
  | bool (b : Bool)
  | num (q : Rat)
  | str (s : String)
  | arr (elems : List Json)
  | obj (fields : List (String × Json))
deriving Repr

/-- Python `str()` of a decoded-JSON value, as used by an f-string.
Only the `str` and `null` cases are ever relied on by a theorem; the
rendering of the remaining cases is a placeholder for Python's `repr`-like
output and is never inspected. -/
def pyStr : Json → String
  | .null => "None"
  | .bool true => "True"
  | .bool false => "False"
  | .num q => toString q
  | .str s => s
  | .arr _ => "[...]"
  | .obj _ => "{...}"

/-! ## Request builder (`execute_code`, main.py lines 251-278) -/

/-- The parameters of `execute_code`, with the Python default arguments as
Lean default field values (`name="main"`, `encoding="utf8"`, every optional
tuning parameter `None`). -/
structure ExecuteParams where
  code : String
  language : String
  version : String
  name : String := "main"
  encoding : String := "utf8"
  dependencies : Option (List String) := none
  args : Option (List String) := none
  stdin : Option String := none
  compile_memory_limit : Option Rat := none
  run_memory_limit : Option Rat := none
  run_timeout : Option Rat := none
  compile_timeout : Option Rat := none
  run_cpu_time : Option Rat := none
  compile_cpu_time : Option Rat := none

/-- Models `if x is not None: payload[k] = v` — inserting a fresh key at the end of
the payload dict exactly when the optional value is set. -/
def optEntry (k : String) (v : Option Json) : List (String × Json) :=
  match v with
  | some j => [(k, j)]
  | none => []

/-- The mandatory core of the payload dict literal (main.py lines 251-259). -/
def mandatoryPayload (p : ExecuteParams) : List (String × Json) :=
  [("language", Json.str p.language),
   ("version", Json.str p.version),
   ("files", Json.arr [Json.obj
     [("name", Json.str p.name),
      ("content", Json.str p.code),
      ("encoding", Json.str p.encoding)]])]

/-- The wire payload built by `execute_code` (main.py lines 251-278): the
mandatory core followed, in source order, by one entry per optional
parameter that is not `None`. -/
def executePayload (p : ExecuteParams) : List (String × Json) :=
  mandatoryPayload p
    ++ optEntry "dependencies" (p.dependencies.map (fun ds => Json.arr (ds.map Json.str)))
    ++ optEntry "args" (p.args.map (fun xs => Json.arr (xs.map Json.str)))
    ++ optEntry "stdin" (p.stdin.map Json.str)
    ++ optEntry "compile_memory_limit" (p.compile_memory_limit.map Json.num)
    ++ optEntry "run_memory_limit" (p.run_memory_limit.map Json.num)
    ++ optEntry "run_timeout" (p.run_timeout.map Json.num)
    ++ optEntry "compile_timeout" (p.compile_timeout.map Json.num)
    ++ optEntry "run_cpu_time" (p.run_cpu_time.map Json.num)
    ++ optEntry "compile_cpu_time" (p.compile_cpu_time.map Json.num)

/-- The key set of the payload. -/
def payloadKeys (p : ExecuteParams) : List String :=
  (executePayload p).map Prod.fst

/-! ## Transport and error classifier (`_make_request`, main.py lines 61-111) -/

/-- The body of an HTTP response as `response.json()` sees it:
no content at all, content that decodes as JSON, or content that does not
(carrying the `str()` of the `JSONDecodeError`). -/
inductive ResponseBody where
  | empty
  | json (j : Json)
  | invalid (decodeDesc : String)
deriving Repr

/-- An HTTP response: status code plus the reason phrase and final URL that
`requests.HTTPError.__str__` interpolates, plus the body. -/
structure HttpResponse where
  status : Nat
  reason : String
  url : String
  body : ResponseBody
deriving Repr

/-- What `self.session.request(...)` produces: a response, or a
network-level `RequestException` (connection refused, timeout, DNS failure)
carrying its `str()`. -/
inductive Outcome where
  | ok (r : HttpResponse)
  | netFail (desc : String)
deriving Repr

/-- Models `response.json()`: the parsed value, or the decode-error description of
the `requests.exceptions.JSONDecodeError` it raises (an empty body is also
not valid JSON). -/
def responseJson : ResponseBody → Except String Json
  | .empty => .error "Expecting value: line 1 column 1 (char 0)"
  | .json j => .ok j
  | .invalid d => .error d

/-- The `str(e)` of the `requests.exceptions.HTTPError` raised by
`response.raise_for_status()`: `none` when the status is below 400 or not
in the 4xx/5xx ranges (no exception raised). -/
def raiseForStatus (r : HttpResponse) : Option String :=
  if 400 ≤ r.status ∧ r.status < 500 then
    some (toString r.status ++ " Client Error: " ++ r.reason ++ " for url: " ++ r.url)
  else if 500 ≤ r.status ∧ r.status < 600 then
    some (toString r.status ++ " Server Error: " ++ r.reason ++ " for url: " ++ r.url)
  else
    none

/-- The exceptions `_make_request` lets escape: the two package errors
(whose argument is whatever object `.get('message', default)` returned),
`CodeExecutionError` (always constructed from an f-string, hence a
`String`), and `uncaught` for a Python exception the code neither raises
nor catches (e.g. `AttributeError` from `.get` on a non-dict JSON body). -/
inductive ClientError where
  | packageNotFound (msg : Json)
  | packageAlreadyInstalled (msg : Json)
  | codeExecutionError (msg : String)
  | uncaught (desc : String)
deriving Repr

/-- Models `parsed.get('message', default)` on the decoded error body: the field's
value when the key is present (even if `null`), the default when absent;
`AttributeError` when the decoded body is not a dict. -/
def getMessage (j : Json) (d : Json) : Except String Json :=
  match j with
  | .obj fs => .ok ((fs.lookup "message").getD d)
  | _ => .error "AttributeError: object has no attribute get"

/-- Models `dict.update` applied to a copy of `base`: existing keys keep their
position and take the overriding value, new keys of `upd` are appended in
order. -/
def dictUpdate (base upd : List (String × String)) : List (String × String) :=
  base.map (fun p => match upd.lookup p.1 with
    | some v => (p.1, v)
    | none => p)
    ++ upd.filter (fun p => (base.lookup p.1).isNone)

/-- Lines 87-91 of main.py: if a per-call `headers` dict is truthy
(non-`None` and non-empty), the request is sent with a copy of the session
headers updated by it; otherwise `kwargs` carries no `headers` key and the
session's own headers are sent. -/
def requestHeaders (sessionHeaders : List (String × String))
    (headers : Option (List (String × String))) : List (String × String) :=
  match headers with
  | some h => if h.isEmpty then sessionHeaders else dictUpdate sessionHeaders h
  | none => sessionHeaders

/-- Classification of a received response (the body of the `try` block,
main.py lines 96-102, together with the `except` clauses 104-111 that
catch what it raises). -/
def handleResponse (endpoint : String) (r : HttpResponse) : Except ClientError Json :=
  if r.status = 404 then
    match responseJson r.body with
    | .ok j =>
      match getMessage j (Json.str "Package not found") with
      | .ok m => .error (.packageNotFound m)
      | .error d => .error (.uncaught d)
    | .error d => .error (.codeExecutionError ("API request failed: " ++ d))
  else if r.status = 409 ∧ endpoint = "packages" then
    match responseJson r.body with
    | .ok j =>
      match getMessage j (Json.str "Package already installed") with
      | .ok m => .error (.packageAlreadyInstalled m)
      | .error d => .error (.uncaught d)
    | .error d => .error (.codeExecutionError ("API request failed: " ++ d))
  else
    match raiseForStatus r with
    | some httpErrDesc =>
      match responseJson r.body with
      | .ok j =>
        match getMessage j (Json.str httpErrDesc) with
        | .ok m => .error (.codeExecutionError ("API request failed: " ++ pyStr m))
        | .error d => .error (.uncaught d)
      | .error _ => .error (.codeExecutionError ("API request failed: " ++ httpErrDesc))
    | none =>
      match r.body with
      | .empty => .ok (Json.obj [])
      | .json j => .ok j
      | .invalid d => .error (.codeExecutionError ("API request failed: " ++ d))

/-- Everything `_make_request` leaves behind: the headers handed to
`session.request`, the session's header dict after the call, and the
returned JSON value or escaped exception. -/
structure RequestTrace where
  sentHeaders : List (String × String)
  sessionAfter : List (String × String)
  result : Except ClientError Json
deriving Repr

/-- Models `_make_request` (main.py lines 61-111), with the HTTP outcome passed in
explicitly. The update of per-call headers happens on a copy
(`self.session.headers.copy()`), so the session headers after the call are
the ones it started with. A network-level failure is not an `HTTPError`,
so it maps to `CodeExecutionError` with the exception's own description. -/
def _make_request (sessionHeaders : List (String × String)) (endpoint : String)
    (headers : Option (List (String × String))) (outcome : Outcome) : RequestTrace :=
  { sentHeaders := requestHeaders sessionHeaders headers
    sessionAfter := sessionHeaders
    result :=
      match outcome with
      | .ok r => handleResponse endpoint r
      | .netFail d => .error (.codeExecutionError ("API request failed: " ++ d)) }

/-! ## Inventory operations (main.py lines 113-178) -/

/-- The `Runtime` dataclass (main.py lines 19-24). A Python dataclass does
not check field types, so each field holds whatever JSON value the response
supplied; the defaults are `runtime=None` and `aliases=[]`
(`field(default_factory=list)`). -/
structure Runtime where
  language : Json
  version : Json
  runtime : Json := Json.null
  aliases : Json := Json.arr []
deriving Repr

/-- Models `Runtime(**entry)`: succeeds exactly when the entry is a dict whose
keys are among the dataclass's fields and which supplies the two fields
without defaults; any other shape raises `TypeError` (`none`). -/
def decodeRuntime : Json → Option Runtime
  | .obj fs =>
    if fs.all (fun p => ["language", "version", "runtime", "aliases"].contains p.1) then
      match fs.lookup "language", fs.lookup "version" with
      | some l, some v =>
        some { language := l, version := v,
               runtime := (fs.lookup "runtime").getD Json.null,
               aliases := (fs.lookup "aliases").getD (Json.arr []) }
      | _, _ => none
    else none
  | _ => none

/-- The list comprehension `[Runtime(**r) for r in response]` over a JSON
array: it builds one record per element and the first `TypeError` aborts
the whole comprehension. -/
def decodeRuntimeList : List Json → Option (List Runtime)
  | [] => some []
  | j :: js =>
    match decodeRuntime j, decodeRuntimeList js with
    | some r, some rs => some (r :: rs)
    | _, _ => none

/-- Iterating the response value itself: a JSON array yields its elements;
iterating a dict yields its keys (strings) and iterating a string yields
its characters, so any non-empty one feeds a non-dict to `Runtime(**r)`
and raises `TypeError`, while the empty ones yield `[]`; `None`, booleans
and numbers are not iterable (`TypeError`). -/
def decodeRuntimes : Json → Option (List Runtime)
  | .arr xs => decodeRuntimeList xs
  | .obj fs => if fs.isEmpty then some [] else none
  | .str s => if s.isEmpty then some [] else none
  | _ => none

/-- Models `list_runtimes` (main.py lines 113-124): GET `/runtimes` through
`_make_request`, then decode each entry of the result; a `TypeError` from
the comprehension escapes uncaught. -/
def list_runtimes (sessionHeaders : List (String × String))
    (headers : Option (List (String × String))) (outcome : Outcome) :
    Except ClientError (List Runtime) :=
  match (_make_request sessionHeaders "/runtimes" headers outcome).result with
  | .ok j =>
    match decodeRuntimes j with
    | some rs => .ok rs
    | none => .error (.uncaught "TypeError: Runtime() argument")
  | .error e => .error e

/-- Models `install_package` (main.py lines 139-161): POST `/packages` (note the
leading slash in the literal passed to `_make_request`), return `True` on
success and `False` when `PackageAlreadyInstalledError` was raised; every
other exception propagates. -/
def install_package (sessionHeaders : List (String × String))
    (headers : Option (List (String × String))) (outcome : Outcome) :
    Except ClientError Bool :=
  match (_make_request sessionHeaders "/packages" headers outcome).result with
  | .ok _ => .ok true
  | .error (.packageAlreadyInstalled _) => .ok false
  | .error e => .error e

/-! ## Result parser (`execute_code`, main.py lines 280-296) -/

/-- The `ExecutionResult` dataclass (main.py lines 32-38), all fields
defaulting to `None`. The parser copies raw JSON values out of the
response, and `dict.get` with no default also yields `None` for an absent
key, so each field holds a JSON value with `Json.null` playing `None`. -/
structure ExecutionResult where
  install_output : Json := Json.null
  install_error : Json := Json.null
  execute_output : Json := Json.null
  execute_error : Json := Json.null
  web_app_url : Json := Json.null
deriving Repr

/-- Models `d.get(k)` on a stage dict: the value when present, `None` otherwise. -/
def dictGet (fs : List (String × Json)) (k : String) : Json :=
  (fs.lookup k).getD Json.null

/-- Lines 282-296 of main.py, on a response dict (per `_make_request`'s
`Dict` return annotation; a stage value that is not a dict would raise
`AttributeError` in Python and is outside the modelled domain, mapped here
to the untouched default). -/
def parseExecutionResult (response : List (String × Json)) : ExecutionResult :=
  let r0 : ExecutionResult := {}
  let r1 :=
    match response.lookup "stages" with
    | some (Json.obj stages) =>
      let a :=
        match stages.lookup "install" with
        | some (Json.obj st) =>
          { r0 with install_output := dictGet st "stdout",
                    install_error := dictGet st "stderr" }
        | _ => r0
      match stages.lookup "execute" with
      | some (Json.obj st) =>
        { a with execute_output := dictGet st "stdout",
                 execute_error := dictGet st "stderr" }
      | _ => a
    | _ => r0
  match response.lookup "webAppUrl" with
  | some u => { r1 with web_app_url := u }
  | none => r1

/-- Returns `true` when the response has a `stages` dict containing the stage. -/
def stageInResponse (response : List (String × Json)) (stage : String) : Bool :=
  match response.lookup "stages" with
  | some (Json.obj stages) => (stages.lookup stage).isSome
  | _ => false

/-! ## Helper lemmas -/

lemma lookup_append_pairs (xs ys : List (String × String)) (k : String) :
    (xs ++ ys).lookup k =
      match xs.lookup k with
      | some v => some v
      | none => ys.lookup k := by
  induction xs with
  | nil => simp
  | cons p rest ih =>
    by_cases h : k = p.1
    · simp [List.lookup, h]
    · simp only [List.cons_append, List.lookup, beq_eq_false_iff_ne.mpr h]
      exact ih

lemma lookup_map_override (u b : List (String × String)) (k : String) :
    (b.map (fun p => match u.lookup p.1 with
        | some v => (p.1, v)
        | none => p)).lookup k
      = (b.lookup k).map (fun v => (u.lookup k).getD v) := by
  induction b with
  | nil => simp
  | cons p rest ih =>
    by_cases h : k = p.1
    · subst h
      cases hu : u.lookup p.1 <;> simp [List.lookup, hu]
    · cases hu : u.lookup p.1 <;>
        simp only [List.map_cons, List.lookup, hu, beq_eq_false_iff_ne.mpr h, ih]

lemma lookup_filter_keyNew (b u : List (String × String)) (k : String)
    (hb : b.lookup k = none) :
    (u.filter (fun p => (b.lookup p.1).isNone)).lookup k = u.lookup k := by
  induction u with
  | nil => simp
  | cons p rest ih =>
    by_cases h : k = p.1
    · subst h
      simp [List.filter, hb, List.lookup]
    · cases hp : (b.lookup p.1).isNone <;>
        simp [List.filter, hp, List.lookup, beq_eq_false_iff_ne.mpr h, ih]

/-- Lookup semantics of `dict.update` on a copy: the per-call value wins on
a shared key, the base value survives otherwise. -/
lemma lookup_dictUpdate (b u : List (String × String)) (k : String) :
    (dictUpdate b u).lookup k =
      match u.lookup k with
      | some v => some v
      | none => b.lookup k := by
  unfold dictUpdate
  rw [lookup_append_pairs, lookup_map_override]
  cases hb : b.lookup k with
  | some v => cases hu : u.lookup k <;> simp [hu]
  | none =>
    rw [lookup_filter_keyNew b u k hb]
    cases hu : u.lookup k <;> simp [hu]

lemma mem_keys_optEntry (k k' : String) (v : Option Json) :
    k ∈ (optEntry k' v).map Prod.fst ↔ k = k' ∧ v.isSome := by
  cases v <;> simp [optEntry]

lemma decodeRuntimeList_length (xs : List Json) (rs : List Runtime)
    (h : decodeRuntimeList xs = some rs) : rs.length = xs.length := by
  induction xs generalizing rs with
  | nil =>
    simp only [decodeRuntimeList, Option.some.injEq] at h
    subst h
    rfl
  | cons j js ih =>
    unfold decodeRuntimeList at h
    cases hd : decodeRuntime j <;> rw [hd] at h
    · exact absurd h (by simp)
    · cases ht : decodeRuntimeList js <;> rw [ht] at h
      · exact absurd h (by simp)
      · simp only [Option.some.injEq] at h
        subst h
        simpa using ih _ ht

/-! ## Claims -/

/-- C7: for every request made with a (non-empty) per-call headers mapping,
the headers actually sent are the union of the construction-time default
headers and the per-call headers, and on any key present in both, the
per-call value wins. -/
theorem spec_C7 (s h : List (String × String)) (ep : String) (out : Outcome)
    (k : String) (hne : h ≠ []) :
    (_make_request s ep (some h) out).sentHeaders.lookup k =
      match h.lookup k with
      | some v => some v
      | none => s.lookup k := by
  cases h with
  | nil => exact absurd rfl hne
  | cons a t =>
    show (requestHeaders s (some (a :: t))).lookup k = _
    simp only [requestHeaders, List.isEmpty_cons, Bool.false_eq_true, if_false]
    exact lookup_dictUpdate s (a :: t) k

/-- Witness for C7 at a concrete call: default headers A=1,B=2 overlaid
with B=3,C=4 send A=1, B=3, C=4. -/
theorem spec_C7_witness :
    ([("B", "3"), ("C", "4")] : List (String × String)) ≠ []
    ∧ (_make_request [("A", "1"), ("B", "2")] "/execute"
        (some [("B", "3"), ("C", "4")]) (.netFail "timeout")).sentHeaders.lookup "B"
      = some "3" := by
  refine ⟨by simp, ?_⟩
  rw [spec_C7 [("A", "1"), ("B", "2")] [("B", "3"), ("C", "4")] "/execute"
    (.netFail "timeout") "B" (by simp)]
  rfl

/-- C9: a non-empty per-call headers mapping is applied to a copy of the
session's default headers, so the stored defaults are unchanged after the
call. -/
theorem spec_C9 (s h : List (String × String)) (ep : String) (out : Outcome)
    (_hne : h ≠ []) :
    (_make_request s ep (some h) out).sessionAfter = s := rfl

/-- Witness for C9 at a concrete call. -/
theorem spec_C9_witness :
    (_make_request [("A", "1")] "/runtimes" (some [("A", "2")])
        (.netFail "timeout")).sessionAfter = [("A", "1")] :=
  spec_C9 [("A", "1")] [("A", "2")] "/runtimes" (.netFail "timeout") (by simp)

/-- C2: the payload of `execute_code` carries a key for an optional
parameter exactly when the caller set it; an explicitly empty dependency
or argument list is sent as an empty list. -/
theorem spec_C2 (p : ExecuteParams) (k : String) :
    (k ∈ payloadKeys p ↔
      (k = "language" ∨ k = "version" ∨ k = "files"
        ∨ (k = "dependencies" ∧ p.dependencies.isSome)
        ∨ (k = "args" ∧ p.args.isSome)
        ∨ (k = "stdin" ∧ p.stdin.isSome)
        ∨ (k = "compile_memory_limit" ∧ p.compile_memory_limit.isSome)
        ∨ (k = "run_memory_limit" ∧ p.run_memory_limit.isSome)
        ∨ (k = "run_timeout" ∧ p.run_timeout.isSome)
        ∨ (k = "compile_timeout" ∧ p.compile_timeout.isSome)
        ∨ (k = "run_cpu_time" ∧ p.run_cpu_time.isSome)
        ∨ (k = "compile_cpu_time" ∧ p.compile_cpu_time.isSome)))
    ∧ (p.dependencies = some [] → ("dependencies", Json.arr []) ∈ executePayload p)
    ∧ (p.args = some [] → ("args", Json.arr []) ∈ executePayload p) := by
  refine ⟨?_, ?_, ?_⟩
  · simp only [payloadKeys, executePayload, List.map_append, List.mem_append,
      mem_keys_optEntry, Option.isSome_map', mandatoryPayload]
    simp [or_assoc]
  · intro hdep
    simp [executePayload, optEntry, hdep]
  · intro hargs
    simp [executePayload, optEntry, hargs]

/-- Witness for C2 at a concrete parameter record with an explicitly empty
dependency list and everything else unset. -/
theorem spec_C2_witness :
    ("dependencies" ∈ payloadKeys
        { code := "print(1)", language := "python", version := "3.11.0",
          dependencies := some [], args := some [] }
      ↔ True)
    ∧ ("dependencies", Json.arr []) ∈ executePayload
        { code := "print(1)", language := "python", version := "3.11.0",
          dependencies := some [], args := some [] }
    ∧ ("args", Json.arr []) ∈ executePayload
        { code := "print(1)", language := "python", version := "3.11.0",
          dependencies := some [], args := some [] } := by
  have h := spec_C2
    { code := "print(1)", language := "python", version := "3.11.0",
      dependencies := some [], args := some [] } "dependencies"
  refine ⟨?_, h.2.1 rfl, h.2.2 rfl⟩
  rw [h.1]
  simp

/-- C6: every `execute_code` payload carries language, version and a
single-element files list whose entry has the supplied code as content,
with name and encoding defaulting to "main" and "utf8". -/
theorem spec_C6 (p : ExecuteParams) (c l v : String) :
    (executePayload p).lookup "language" = some (Json.str p.language)
    ∧ (executePayload p).lookup "version" = some (Json.str p.version)
    ∧ (executePayload p).lookup "files" = some (Json.arr [Json.obj
        [("name", Json.str p.name),
         ("content", Json.str p.code),
         ("encoding", Json.str p.encoding)]])
    ∧ ({ code := c, language := l, version := v } : ExecuteParams).name = "main"
    ∧ ({ code := c, language := l, version := v } : ExecuteParams).encoding = "utf8" :=
  ⟨rfl, rfl, rfl, rfl, rfl⟩

lemma parse_absent_install (response : List (String × Json))
    (h : stageInResponse response "install" = false) :
    (parseExecutionResult response).install_output = Json.null ∧
    (parseExecutionResult response).install_error = Json.null := by
  unfold stageInResponse at h
  unfold parseExecutionResult
  constructor <;> (repeat' split) <;> simp_all

lemma parse_absent_execute (response : List (String × Json))
    (h : stageInResponse response "execute" = false) :
    (parseExecutionResult response).execute_output = Json.null ∧
    (parseExecutionResult response).execute_error = Json.null := by
  unfold stageInResponse at h
  unfold parseExecutionResult
  constructor <;> (repeat' split) <;> simp_all

/-- C3: a stage absent from the response leaves both of its result fields
unset, and the sample response with only an execute stage yields
`execute_output = "hi\n"` with every other field unset. -/
theorem spec_C3 (response : List (String × Json)) :
    (stageInResponse response "install" = false →
      (parseExecutionResult response).install_output = Json.null ∧
      (parseExecutionResult response).install_error = Json.null)
    ∧ (stageInResponse response "execute" = false →
      (parseExecutionResult response).execute_output = Json.null ∧
      (parseExecutionResult response).execute_error = Json.null)
    ∧ parseExecutionResult
        [("stages", Json.obj [("execute", Json.obj [("stdout", Json.str "hi\n")])])]
      = { execute_output := Json.str "hi\n" } :=
  ⟨parse_absent_install response, parse_absent_execute response, rfl⟩

/-- Witness for C3: the sample response, which has no install stage. -/
theorem spec_C3_witness :
    (parseExecutionResult
        [("stages", Json.obj [("execute", Json.obj [("stdout", Json.str "hi\n")])])]).install_output
      = Json.null := by
  have h := (spec_C3
    [("stages", Json.obj [("execute", Json.obj [("stdout", Json.str "hi\n")])])]).1
  exact (h rfl).1

/-- C8: `list_runtimes` never partially decodes — whenever it returns a
list, that list has one Runtime per entry of the catalog array; a
malformed entry fails the whole call instead of being dropped. -/
theorem spec_C8 (s : List (String × String)) (hs : Option (List (String × String)))
    (reason url : String) (xs : List Json) (rs : List Runtime)
    (h : list_runtimes s hs (.ok ⟨200, reason, url, .json (Json.arr xs)⟩) = .ok rs) :
    rs.length = xs.length := by
  have h' : (match decodeRuntimeList xs with
      | some rs' => (Except.ok rs' : Except ClientError (List Runtime))
      | none => Except.error (ClientError.uncaught "TypeError: Runtime() argument"))
      = Except.ok rs := h
  cases hd : decodeRuntimeList xs with
  | none => rw [hd] at h'; exact absurd h' (by simp)
  | some rs' =>
    rw [hd] at h'
    simp only [Except.ok.injEq] at h'
    subst h'
    exact decodeRuntimeList_length xs rs' hd

/-- Witness for C8: a two-entry catalog decodes to exactly two records. -/
theorem spec_C8_witness :
    (list_runtimes [] none (.ok ⟨200, "OK", "http://localhost/api/v2/runtimes",
        .json (Json.arr
          [Json.obj [("language", Json.str "python"), ("version", Json.str "3.11.0")],
           Json.obj [("language", Json.str "go"), ("version", Json.str "1.16.2"),
                     ("aliases", Json.arr [Json.str "golang"])]])⟩)
      = .ok [{ language := Json.str "python", version := Json.str "3.11.0" },
             { language := Json.str "go", version := Json.str "1.16.2",
               aliases := Json.arr [Json.str "golang"] }])
    ∧ ([{ language := Json.str "python", version := Json.str "3.11.0" },
        { language := Json.str "go", version := Json.str "1.16.2",
          aliases := Json.arr [Json.str "golang"] }] : List Runtime).length = 2 :=
  ⟨rfl, spec_C8 [] none "OK" "http://localhost/api/v2/runtimes"
    [Json.obj [("language", Json.str "python"), ("version", Json.str "3.11.0")],
     Json.obj [("language", Json.str "go"), ("version", Json.str "1.16.2"),
               ("aliases", Json.arr [Json.str "golang"])]]
    [{ language := Json.str "python", version := Json.str "3.11.0" },
     { language := Json.str "go", version := Json.str "1.16.2",
       aliases := Json.arr [Json.str "golang"] }] rfl⟩

/-- C10: a catalog entry with only language and version decodes to a
Runtime with `runtime = None` and `aliases = []`, and `list_runtimes`
returns it rather than failing. -/
theorem spec_C10 (l v : String) :
    decodeRuntime (Json.obj [("language", Json.str l), ("version", Json.str v)])
      = some { language := Json.str l, version := Json.str v }
    ∧ list_runtimes [] none (.ok ⟨200, "OK", "http://localhost/api/v2/runtimes",
        .json (Json.arr [Json.obj
          [("language", Json.str "python"), ("version", Json.str "3.11.0")]])⟩)
      = .ok [{ language := Json.str "python", version := Json.str "3.11.0" }] :=
  ⟨rfl, rfl⟩

/-- C1 (against the code): on an HTTP 409 from a POST to the package
endpoint, `install_package` — which passes the literal `"/packages"` to
`_make_request`, while the 409 check compares the endpoint to
`"packages"` without the slash — raises `CodeExecutionError` instead of
returning `False`; the `PackageAlreadyInstalledError` branch fires only
for the bare string `"packages"`, which no caller in the file uses. -/
theorem spec_C1 :
    install_package [] none (.ok ⟨409, "Conflict", "http://localhost/api/v2/packages",
        .json (Json.obj [("message", Json.str "Package already installed")])⟩)
      = .error (.codeExecutionError "API request failed: Package already installed")
    ∧ (_make_request [] "packages" none
        (.ok ⟨409, "Conflict", "http://localhost/api/v2/packages",
          .json (Json.obj [("message", Json.str "Package already installed")])⟩)).result
      = .error (.packageAlreadyInstalled (Json.str "Package already installed")) :=
  ⟨rfl, rfl⟩

/-- C4, counterexample to the claim as stated: a 404 whose body is not
valid JSON does not produce `PackageNotFoundError` with the fixed default
message — the `JSONDecodeError` from `response.json()` is caught as a
`RequestException` and re-raised as `CodeExecutionError`. -/
theorem spec_C4_counterexample :
    ((_make_request [] "/packages" none (.ok ⟨404, "Not Found",
        "http://localhost/api/v2/packages",
        .invalid "Expecting value: line 1 column 1 (char 0)"⟩)).result
      = .error (.codeExecutionError
          "API request failed: Expecting value: line 1 column 1 (char 0)"))
    ∧ (match (_make_request [] "/packages" none (.ok ⟨404, "Not Found",
        "http://localhost/api/v2/packages",
        .invalid "Expecting value: line 1 column 1 (char 0)"⟩)).result with
      | .error (ClientError.packageNotFound _) => False
      | _ => True) :=
  ⟨rfl, trivial⟩

/-- C4 as amended: a 404 on any endpoint raises `PackageNotFoundError`
with the body's `message` field, or the fixed default when the parsed
JSON object lacks one; when the body is not valid JSON the client instead
raises `CodeExecutionError` carrying the decode description. -/
theorem spec_C4 (ep : String) (s : List (String × String))
    (hs : Option (List (String × String))) (r : HttpResponse)
    (h404 : r.status = 404) :
    (∀ fs, r.body = .json (Json.obj fs) →
      (_make_request s ep hs (.ok r)).result
        = .error (.packageNotFound
            ((fs.lookup "message").getD (Json.str "Package not found"))))
    ∧ (∀ d, r.body = .invalid d →
      (_make_request s ep hs (.ok r)).result
        = .error (.codeExecutionError ("API request failed: " ++ d))) := by
  constructor <;> intro x hx <;>
    simp [_make_request, handleResponse, h404, hx, responseJson, getMessage]

/-- Witness for C4 at the spec's own example: 404 on `/packages` with body
`{"message": "no such package"}`. -/
theorem spec_C4_witness :
    (_make_request [] "/packages" none (.ok ⟨404, "Not Found",
        "http://localhost/api/v2/packages",
        .json (Json.obj [("message", Json.str "no such package")])⟩)).result
      = .error (.packageNotFound (Json.str "no such package")) := by
  have h := (spec_C4 "/packages" [] none ⟨404, "Not Found",
    "http://localhost/api/v2/packages",
    .json (Json.obj [("message", Json.str "no such package")])⟩ rfl).1
  exact h [("message", Json.str "no such package")] rfl

/-- C5: any 4xx/5xx response outside the 404 and 409-on-`"packages"`
classifications whose body is not valid JSON raises `CodeExecutionError`
whose non-empty message comes from the `HTTPError`'s own description, and
no JSON-decoding failure escapes to the caller. -/
theorem spec_C5 (ep : String) (s : List (String × String))
    (hs : Option (List (String × String))) (r : HttpResponse) (d : String)
    (hlo : 400 ≤ r.status) (hhi : r.status < 600) (h404 : r.status ≠ 404)
    (h409 : ¬(r.status = 409 ∧ ep = "packages"))
    (hbody : r.body = .invalid d) :
    ∃ e, raiseForStatus r = some e
      ∧ (_make_request s ep hs (.ok r)).result
          = .error (.codeExecutionError ("API request failed: " ++ e))
      ∧ ("API request failed: " ++ e) ≠ "" := by
  have hne : ∀ t : String, ("API request failed: " ++ t) ≠ "" := by
    intro t hcontra
    have hlen := congrArg String.length hcontra
    rw [String.length_append] at hlen
    have h1 : ("API request failed: " : String).length = 20 := rfl
    have h2 : ("" : String).length = 0 := rfl
    omega
  have hraise : ∃ e, raiseForStatus r = some e := by
    unfold raiseForStatus
    by_cases hc : r.status < 500
    · exact ⟨toString r.status ++ " Client Error: " ++ r.reason ++ " for url: " ++ r.url,
        by simp [hlo, hc]⟩
    · have h5 : 500 ≤ r.status := Nat.le_of_not_lt hc
      exact ⟨toString r.status ++ " Server Error: " ++ r.reason ++ " for url: " ++ r.url,
        by simp [hlo, hc, h5, hhi]⟩
  obtain ⟨e, he⟩ := hraise
  refine ⟨e, he, ?_, hne e⟩
  simp [_make_request, handleResponse, h404, h409, he, hbody, responseJson]

/-- Witness for C5 at a concrete 500 response with an unparseable body. -/
theorem spec_C5_witness :
    ∃ e, raiseForStatus ⟨500, "Internal Server Error",
        "http://localhost/api/v2/execute",
        .invalid "Expecting value: line 1 column 1 (char 0)"⟩ = some e
      ∧ (_make_request [] "/execute" none (.ok ⟨500, "Internal Server Error",
          "http://localhost/api/v2/execute",
          .invalid "Expecting value: line 1 column 1 (char 0)"⟩)).result
          = .error (.codeExecutionError ("API request failed: " ++ e))
      ∧ ("API request failed: " ++ e) ≠ "" :=
  spec_C5 "/execute" [] none
    ⟨500, "Internal Server Error", "http://localhost/api/v2/execute",
      .invalid "Expecting value: line 1 column 1 (char 0)"⟩
    "Expecting value: line 1 column 1 (char 0)"
    (by decide) (by decide) (by decide) (by simp) rfl
